import Mathlib

/-!
Verification of the join-request auto-moderation pipeline of a Telegram
group-management bot (`app/bot/handlers.py` and the store queries of
`app/models.py`), as a shallow embedding.

The store is a list of join-request rows; the external decline API, the
fallibility of the store's UPDATE statement and the wall clock are oracles
supplied as parameters; side effects of a reconciliation pass are recorded
in an explicit trace.  Store-level exceptions are modelled with `Except`.
-/

/-- `join_requests.status` enum: `pending`, `declined`, `expired`. -/
inductive Status where
  | pending
  | declined
  | expired
deriving DecidableEq, Repr

/-- One row of the `join_requests` table (the columns the reconciler reads). -/
structure JoinRow where
  id : Nat
  user_id : Int
  chat_id : Int
  username : Option String
  first_name : Option String
  request_date : Nat
  status : Status
deriving DecidableEq, Repr

/-- The join-request store: the rows of the `join_requests` table. -/
abbrev Store := List JoinRow

/-- Exception classes of `python-telegram-bot` as the reconciler
distinguishes them: `BadRequest`, any other `TelegramError`, and any other
`Exception`. -/
inductive ErrKind where
  | badRequest
  | telegramError
  | otherError
deriving DecidableEq, Repr

/-- An exception value: its class kind, `type(e).__name__`, and `str(e)`. -/
structure ApiError where
  kind : ErrKind
  typeName : String
  message : String
deriving DecidableEq, Repr

/-- Result of one call to `bot.decline_chat_join_request`. -/
inductive DeclineResult where
  | success
  | failure (e : ApiError)
deriving DecidableEq, Repr

/-- A database-layer exception (e.g. a psycopg error): its
`type(e).__name__` and `str(e)`.  Database errors are not Telegram errors,
so in the reconciler's `try` block they fall to the bare `except Exception`
branch. -/
structure StoreError where
  typeName : String
  message : String
deriving DecidableEq, Repr

/-- Observable side effects of a reconciliation pass. -/
inductive Effect where
  | fetchPending (chat_id threshold : Int) (limit : Nat)
  | openLog (path : String)
  | declineCall (chat_id user_id : Int)
  | markStatusCall (ids : List Nat) (st : Status)
  | logWrite (line : String)
  | logFlush
deriving DecidableEq, Repr

/-- Lower-casing a string character by character (Python `str.lower` on the
ASCII error phrases involved). -/
def strLower (s : String) : String :=
  String.mk (s.data.map Char.toLower)

/-- Does `cs` start with `pre`? -/
def startsWithChars : List Char → List Char → Bool
  | _, [] => true
  | [], _ :: _ => false
  | c :: cs, d :: ds => c = d && startsWithChars cs ds

/-- Does `needle` occur contiguously somewhere in the list? -/
def hasSubstringChars (needle : List Char) : List Char → Bool
  | [] => startsWithChars [] needle
  | c :: cs => startsWithChars (c :: cs) needle || hasSubstringChars needle cs

/-- Python `needle in hay` substring containment. -/
def strContains (hay needle : String) : Bool :=
  hasSubstringChars needle.data hay.data

/-- The fixed needle tuple of `_is_expired_join_request_error` in
`app/bot/handlers.py`. -/
def expiredNeedles : List String :=
  ["chat_join_request_not_found",
   "join request not found",
   "user_already_participant",
   "user already participant",
   "user is already a participant",
   "user_not_found"]

/-- `_is_expired_join_request_error(text)`: lower-case the text and test
whether any needle of the fixed tuple occurs in it as a substring. -/
def _is_expired_join_request_error (text : String) : Bool :=
  expiredNeedles.any (fun needle => strContains (strLower text) needle)

/-- Replacement applied by `_sanitize_one_line` before stripping: the
single characters `\n` and `\r` each become a space. -/
def sanitizeChar (c : Char) : Char :=
  if c = '\n' then ' ' else if c = '\r' then ' ' else c

/-- Python `str.strip()`: drop leading and trailing whitespace. -/
def stripEnds (cs : List Char) : List Char :=
  ((cs.dropWhile Char.isWhitespace).reverse.dropWhile Char.isWhitespace).reverse

/-- `_sanitize_one_line(text)`: replace `\n` and `\r` by spaces, then strip
surrounding whitespace. -/
def _sanitize_one_line (text : String) : String :=
  String.mk (stripEnds (text.data.map sanitizeChar))

/-- The `WHERE` clause of the fetch query: `chat_id = %s AND status =
'pending' AND user_id >= %s`. -/
def pendingFresh (chat_id min_user_id : Int) (r : JoinRow) : Prop :=
  r.chat_id = chat_id ∧ r.status = Status.pending ∧ min_user_id ≤ r.user_id

instance (chat_id min_user_id : Int) (r : JoinRow) :
    Decidable (pendingFresh chat_id min_user_id r) := by
  unfold pendingFresh; infer_instance

/-- The `ORDER BY request_date ASC` comparison. -/
def byDate (a b : JoinRow) : Prop :=
  a.request_date ≤ b.request_date

instance : DecidableRel byDate :=
  fun a b => inferInstanceAs (Decidable (a.request_date ≤ b.request_date))

instance : IsTotal JoinRow byDate :=
  ⟨fun a b => Nat.le_total a.request_date b.request_date⟩

instance : IsTrans JoinRow byDate :=
  ⟨fun _ _ _ hab hbc => Nat.le_trans hab hbc⟩

/-- `get_pending_fresh_join_requests(chat_id, min_user_id, limit)`: the SQL
query `SELECT ... WHERE chat_id = %s AND status = 'pending' AND user_id >=
%s ORDER BY request_date ASC LIMIT %s`. -/
def get_pending_fresh_join_requests (store : Store) (chat_id min_user_id : Int)
    (limit : Nat) : List JoinRow :=
  ((store.filter (fun r =>
      decide (pendingFresh chat_id min_user_id r))).insertionSort byDate).take limit

/-- `mark_join_requests_status(ids, status)`: `UPDATE join_requests SET
status = %s WHERE id = ANY(%s)`; returns the updated store and the
rowcount.  On an empty id list it returns 0 without touching the store. -/
def mark_join_requests_status (store : Store) (ids : List Nat) (st : Status) :
    Store × Nat :=
  if ids = [] then (store, 0)
  else
    (store.map (fun r => if r.id ∈ ids then { r with status := st } else r),
     (store.filter (fun r => r.id ∈ ids)).length)

/-- Outcome of the `try`/`except` block around one decline attempt, before
the audit line is written: outcome label, `err_msg`, whether `declined` was
incremented, the store afterwards, and the effects performed.  A
`StoreError` raised by `mark_join_requests_status` inside the `try` block
is caught by the bare `except Exception` branch; one raised inside the
`except BadRequest` handler propagates. -/
def stepRequest (markErr : Nat → Status → Option StoreError)
    (api : Int → Int → DeclineResult) (chat_id : Int) (store : Store)
    (req : JoinRow) :
    Except StoreError (String × String × Bool × Store × List Effect) :=
  let effDecl := Effect.declineCall chat_id req.user_id
  match api chat_id req.user_id with
  | DeclineResult.success =>
    let effMark := Effect.markStatusCall [req.id] Status.declined
    match markErr req.id Status.declined with
    | none =>
      let store2 := (mark_join_requests_status store [req.id] Status.declined).1
      Except.ok ("declined", "", true, store2, [effDecl, effMark])
    | some se =>
      Except.ok ("error", se.typeName ++ ": " ++ se.message, false, store,
        [effDecl, effMark])
  | DeclineResult.failure e =>
    let em := e.typeName ++ ": " ++ e.message
    match e.kind with
    | ErrKind.badRequest =>
      if _is_expired_join_request_error e.message then
        let effMark := Effect.markStatusCall [req.id] Status.expired
        match markErr req.id Status.expired with
        | none =>
          let store2 := (mark_join_requests_status store [req.id] Status.expired).1
          Except.ok ("expired", em, false, store2, [effDecl, effMark])
        | some se => Except.error se
      else
        Except.ok ("error", em, false, store, [effDecl])
    | ErrKind.telegramError => Except.ok ("error", em, false, store, [effDecl])
    | ErrKind.otherError => Except.ok ("error", em, false, store, [effDecl])

/-- The audit line written for one processed request (the f-string of
`process_pending_fresh_join_requests`). -/
def auditLine (ts outcome : String) (req_id : Nat) (chat_id user_id : Int)
    (username first_name err_msg : String) : String :=
  ts ++ "\t" ++ outcome ++ "\trequest_id=" ++ toString req_id ++
    "\tchat_id=" ++ toString chat_id ++ "\tuser_id=" ++ toString user_id ++
    "\tusername=" ++ _sanitize_one_line username ++
    "\tfirst_name=" ++ _sanitize_one_line first_name ++
    "\tmessage=" ++ _sanitize_one_line err_msg

/-- The `for req in pending` loop: processes the batch sequentially,
returning the declined count, the final store, the effect trace and the
audit lines written, or the first propagated store error.  `i` indexes the
clock. -/
def runBatch (markErr : Nat → Status → Option StoreError)
    (api : Int → Int → DeclineResult) (clock : Nat → String) (chat_id : Int) :
    Nat → Store → List JoinRow →
    Except StoreError (Nat × Store × List Effect × List String)
  | _, store, [] => Except.ok (0, store, [], [])
  | i, store, req :: rest =>
    match stepRequest markErr api chat_id store req with
    | Except.error se => Except.error se
    | Except.ok (outcome, err_msg, inc, store2, effs) =>
      let line := auditLine (clock i) outcome req.id chat_id req.user_id
        (req.username.getD "") (req.first_name.getD "") err_msg
      match runBatch markErr api clock chat_id (i + 1) store2 rest with
      | Except.error se => Except.error se
      | Except.ok (d, store3, effs3, lines3) =>
        Except.ok ((if inc then d + 1 else d), store3,
          effs ++ [Effect.logWrite line, Effect.logFlush] ++ effs3,
          line :: lines3)

/-- `process_pending_fresh_join_requests(bot, chat_id, threshold, limit,
log_path)`.  `fetchErr` is a store error raised by the initial fetch (it
happens outside any `try`, so it propagates).  On success returns
`(declined, processed)` together with the final store, effect trace and
audit lines. -/
def process_pending_fresh_join_requests (fetchErr : Option StoreError)
    (markErr : Nat → Status → Option StoreError)
    (api : Int → Int → DeclineResult) (clock : Nat → String) (store : Store)
    (chat_id threshold : Int) (limit : Nat) (log_path : String) :
    Except StoreError (Nat × Nat × Store × List Effect × List String) :=
  match fetchErr with
  | some se => Except.error se
  | none =>
    let pending := get_pending_fresh_join_requests store chat_id threshold limit
    let processed := pending.length
    if processed = 0 then
      Except.ok (0, 0, store, [Effect.fetchPending chat_id threshold limit], [])
    else
      match runBatch markErr api clock chat_id 0 store pending with
      | Except.error se => Except.error se
      | Except.ok (declined, store2, effs, lines) =>
        Except.ok (declined, processed, store2,
          Effect.fetchPending chat_id threshold limit ::
            Effect.openLog log_path :: effs, lines)

/-- `clean_join_requests_job`: if `_clean_join_requests_lock` is already
held the tick returns at once; if `VIBECODER_CHAT_ID` is unset (`None` or
`0`, both falsy in Python) it also returns; otherwise it runs one
reconciliation pass under the lock. -/
def clean_join_requests_job (lockHeld : Bool) (vibecoder_chat_id : Option Int)
    (fetchErr : Option StoreError) (markErr : Nat → Status → Option StoreError)
    (api : Int → Int → DeclineResult) (clock : Nat → String) (store : Store)
    (threshold : Int) (limit : Nat) (log_path : String) :
    Except StoreError (Store × List Effect) :=
  if lockHeld then Except.ok (store, [])
  else
    match vibecoder_chat_id with
    | none => Except.ok (store, [])
    | some cid =>
      if cid = 0 then Except.ok (store, [])
      else
        match process_pending_fresh_join_requests fetchErr markErr api clock
            store cid threshold limit log_path with
        | Except.error se => Except.error se
        | Except.ok (_, _, store2, effs, _) => Except.ok (store2, effs)

/-- Effects touching the audit-log file. -/
def isLogEvent : Effect → Bool
  | Effect.logWrite _ => true
  | Effect.logFlush => true
  | _ => false

/-- Setting `status = 'declined'` on every row whose id is listed. -/
def setDeclined (ids : List Nat) (r : JoinRow) : JoinRow :=
  if r.id ∈ ids then { r with status := Status.declined } else r

/-- The cumulative effect on the store of declining all listed ids. -/
def declineAll (ids : List Nat) (store : Store) : Store :=
  store.map (setDeclined ids)

/-- Two reconciliation passes back to back over a healthy store with a
fully successful external API and no inbound requests in between; yields
the declined counts of the two passes. -/
def runTwice (clock : Nat → String) (log_path : String) (store : Store)
    (chat_id threshold : Int) (limit : Nat) : Option (Nat × Nat) :=
  match process_pending_fresh_join_requests none (fun _ _ => none)
      (fun _ _ => DeclineResult.success) clock store chat_id threshold limit
      log_path with
  | Except.error _ => none
  | Except.ok (d1, _, store1, _, _) =>
    match process_pending_fresh_join_requests none (fun _ _ => none)
        (fun _ _ => DeclineResult.success) clock store1 chat_id threshold limit
        log_path with
    | Except.error _ => none
    | Except.ok (d2, _, _, _, _) => some (d1, d2)

/-- A pending fresh-account join request used in concrete scenarios. -/
def demoRow : JoinRow :=
  ⟨1, 7100000000, 100, some "alice", some "Alice", 1, Status.pending⟩

/-- A second pending fresh-account join request, later `request_date`. -/
def demoRow2 : JoinRow := ⟨2, 7200000000, 100, none, none, 2, Status.pending⟩

/-- A constant wall clock for concrete scenarios. -/
def demoClock : Nat → String := fun _ => "2026-01-01T00:00:00+00:00"

/-- A database error used in concrete scenarios. -/
def dbErr : StoreError := ⟨"OperationalError", "connection lost"⟩

/-- The phrase set exactly as the claim words it: a fixed set that includes
the phrases "request not found", "already participant" and "user not
found". -/
def claimedPhrases : List String :=
  ["request not found", "already participant", "user not found"]

/-- The classifier the claim describes: case-insensitive substring match
against `claimedPhrases`. -/
def claimedClassifier (text : String) : Bool :=
  claimedPhrases.any (fun p => strContains (strLower text) p)

/-- The demo row after its decline succeeded. -/
def demoRowDeclined : JoinRow :=
  ⟨1, 7100000000, 100, some "alice", some "Alice", 1, Status.declined⟩

/-- The audit line of the successful demo decline. -/
def demoLine : String :=
  "2026-01-01T00:00:00+00:00\tdeclined\trequest_id=1\tchat_id=100\t" ++
  "user_id=7100000000\tusername=alice\tfirst_name=Alice\tmessage="

/-- The effect trace of the successful demo pass. -/
def demoTrace : List Effect :=
  [Effect.fetchPending 100 7000000000 10, Effect.openLog "log",
   Effect.declineCall 100 7100000000, Effect.markStatusCall [1] Status.declined,
   Effect.logWrite demoLine, Effect.logFlush]

/-- `sanitizeChar` never produces a newline or carriage return. -/
theorem sanitizeChar_ne_newline (c : Char) :
    sanitizeChar c ≠ '\n' ∧ sanitizeChar c ≠ '\r' := by
  unfold sanitizeChar
  split
  · exact ⟨by decide, by decide⟩
  · split
    · exact ⟨by decide, by decide⟩
    · next h1 h2 => exact ⟨h1, h2⟩

/-- Stripping surrounding whitespace only removes characters. -/
theorem mem_stripEnds {c : Char} {cs : List Char} (h : c ∈ stripEnds cs) :
    c ∈ cs := by
  unfold stripEnds at h
  rw [List.mem_reverse] at h
  have h2 := (List.dropWhile_sublist _).subset h
  rw [List.mem_reverse] at h2
  exact (List.dropWhile_sublist _).subset h2

/-- The sanitizer's output contains no newline and no carriage return. -/
theorem sanitize_no_newline (s : String) :
    ∀ c ∈ (_sanitize_one_line s).data, c ≠ '\n' ∧ c ≠ '\r' := by
  intro c hc
  have hc' : c ∈ s.data.map sanitizeChar := by
    simp only [_sanitize_one_line] at hc
    exact mem_stripEnds hc
  rcases List.mem_map.mp hc' with ⟨c0, _, rfl⟩
  exact sanitizeChar_ne_newline c0

/-- Decline call succeeded and the UPDATE succeeded: the row is marked
declined and the counter is incremented. -/
theorem stepRequest_success_eq {markErr : Nat → Status → Option StoreError}
    {api : Int → Int → DeclineResult} {c : Int} {store : Store} {req : JoinRow}
    (h1 : api c req.user_id = DeclineResult.success)
    (h2 : markErr req.id Status.declined = none) :
    stepRequest markErr api c store req =
      Except.ok ("declined", "", true,
        (mark_join_requests_status store [req.id] Status.declined).1,
        [Effect.declineCall c req.user_id,
         Effect.markStatusCall [req.id] Status.declined]) := by
  simp only [stepRequest, h1, h2]

/-- Decline call succeeded but the UPDATE raised a database error: the bare
`except Exception` branch swallows it, so the outcome is "error" and the
store is untouched. -/
theorem stepRequest_success_markfail_eq
    {markErr : Nat → Status → Option StoreError}
    {api : Int → Int → DeclineResult} {c : Int} {store : Store} {req : JoinRow}
    {se : StoreError}
    (h1 : api c req.user_id = DeclineResult.success)
    (h2 : markErr req.id Status.declined = some se) :
    stepRequest markErr api c store req =
      Except.ok ("error", se.typeName ++ ": " ++ se.message, false, store,
        [Effect.declineCall c req.user_id,
         Effect.markStatusCall [req.id] Status.declined]) := by
  simp only [stepRequest, h1, h2]

/-- `BadRequest` with a recognized phrase and a healthy store: the row is
marked expired. -/
theorem stepRequest_badRequest_expired_eq
    {markErr : Nat → Status → Option StoreError}
    {api : Int → Int → DeclineResult} {c : Int} {store : Store} {req : JoinRow}
    {e : ApiError}
    (h1 : api c req.user_id = DeclineResult.failure e)
    (h2 : e.kind = ErrKind.badRequest)
    (h3 : _is_expired_join_request_error e.message = true)
    (h4 : markErr req.id Status.expired = none) :
    stepRequest markErr api c store req =
      Except.ok ("expired", e.typeName ++ ": " ++ e.message, false,
        (mark_join_requests_status store [req.id] Status.expired).1,
        [Effect.declineCall c req.user_id,
         Effect.markStatusCall [req.id] Status.expired]) := by
  simp only [stepRequest, h1, h2, h3, h4, if_true]

/-- `BadRequest` with a recognized phrase, but the UPDATE to expired raised
a database error inside the `except BadRequest` handler: it propagates. -/
theorem stepRequest_badRequest_expired_markfail_eq
    {markErr : Nat → Status → Option StoreError}
    {api : Int → Int → DeclineResult} {c : Int} {store : Store} {req : JoinRow}
    {e : ApiError} {se : StoreError}
    (h1 : api c req.user_id = DeclineResult.failure e)
    (h2 : e.kind = ErrKind.badRequest)
    (h3 : _is_expired_join_request_error e.message = true)
    (h4 : markErr req.id Status.expired = some se) :
    stepRequest markErr api c store req = Except.error se := by
  simp only [stepRequest, h1, h2, h3, h4, if_true]

/-- Any decline failure that is not a `BadRequest` carrying a recognized
phrase leaves the store untouched with outcome "error". -/
theorem stepRequest_failure_error_eq
    {markErr : Nat → Status → Option StoreError}
    {api : Int → Int → DeclineResult} {c : Int} {store : Store} {req : JoinRow}
    {e : ApiError}
    (h1 : api c req.user_id = DeclineResult.failure e)
    (h2 : ¬(e.kind = ErrKind.badRequest ∧
        _is_expired_join_request_error e.message = true)) :
    stepRequest markErr api c store req =
      Except.ok ("error", e.typeName ++ ": " ++ e.message, false, store,
        [Effect.declineCall c req.user_id]) := by
  cases hk : e.kind with
  | badRequest =>
    have h3 : _is_expired_join_request_error e.message = false := by
      cases h : _is_expired_join_request_error e.message
      · rfl
      · exact absurd ⟨hk, h⟩ h2
    simp only [stepRequest, h1, hk, h3, if_false, Bool.false_eq_true]
  | telegramError => simp only [stepRequest, h1, hk]
  | otherError => simp only [stepRequest, h1, hk]

/-- Whatever the branch, a non-propagating step performs no log-file
effect, and increments the declined counter exactly when the decline call
succeeded and the UPDATE to declined succeeded. -/
theorem stepRequest_ok_inv {markErr : Nat → Status → Option StoreError}
    {api : Int → Int → DeclineResult} {c : Int} {store : Store} {req : JoinRow}
    {o m : String} {inc : Bool} {s' : Store} {effs : List Effect}
    (h : stepRequest markErr api c store req = Except.ok (o, m, inc, s', effs)) :
    effs.filter isLogEvent = [] ∧
      (inc = true ↔ api c req.user_id = DeclineResult.success ∧
        markErr req.id Status.declined = none) := by
  cases hapi : api c req.user_id with
  | success =>
    cases hm : markErr req.id Status.declined with
    | none =>
      rw [stepRequest_success_eq hapi hm] at h
      simp only [Except.ok.injEq, Prod.mk.injEq] at h
      obtain ⟨rfl, rfl, rfl, rfl, rfl⟩ := h
      simp [isLogEvent, hapi, hm]
    | some se =>
      rw [stepRequest_success_markfail_eq hapi hm] at h
      simp only [Except.ok.injEq, Prod.mk.injEq] at h
      obtain ⟨rfl, rfl, rfl, rfl, rfl⟩ := h
      simp [isLogEvent, hapi, hm]
  | failure e =>
    by_cases hbr : e.kind = ErrKind.badRequest ∧
        _is_expired_join_request_error e.message = true
    · cases hm : markErr req.id Status.expired with
      | none =>
        rw [stepRequest_badRequest_expired_eq hapi hbr.1 hbr.2 hm] at h
        simp only [Except.ok.injEq, Prod.mk.injEq] at h
        obtain ⟨rfl, rfl, rfl, rfl, rfl⟩ := h
        simp [isLogEvent, hapi]
      | some se =>
        rw [stepRequest_badRequest_expired_markfail_eq hapi hbr.1 hbr.2 hm] at h
        cases h
    · rw [stepRequest_failure_error_eq hapi hbr] at h
      simp only [Except.ok.injEq, Prod.mk.injEq] at h
      obtain ⟨rfl, rfl, rfl, rfl, rfl⟩ := h
      simp [isLogEvent, hapi]

/-- Invariants of a completed batch loop: one audit line per request, the
declined count counts exactly the fully successful declines, log events
come as write-then-flush pairs in line order, and every line is an
`auditLine` stamped with the clock. -/
theorem runBatch_ok_inv {markErr : Nat → Status → Option StoreError}
    {api : Int → Int → DeclineResult} {clock : Nat → String} {c : Int} :
    ∀ (reqs : List JoinRow) (i : Nat) (store : Store) (d : Nat) (st' : Store)
      (effs : List Effect) (lines : List String),
    runBatch markErr api clock c i store reqs = Except.ok (d, st', effs, lines) →
    lines.length = reqs.length ∧
    d = reqs.countP (fun r => decide (api c r.user_id = DeclineResult.success ∧
        markErr r.id Status.declined = none)) ∧
    effs.filter isLogEvent =
      (lines.map (fun l => [Effect.logWrite l, Effect.logFlush])).flatten ∧
    ∀ line ∈ lines, ∃ k o req msg, req ∈ reqs ∧
      line = auditLine (clock k) o req.id c req.user_id (req.username.getD "")
        (req.first_name.getD "") msg := by
  intro reqs
  induction reqs with
  | nil =>
    intro i store d st' effs lines h
    simp only [runBatch, Except.ok.injEq, Prod.mk.injEq] at h
    obtain ⟨rfl, rfl, rfl, rfl⟩ := h
    simp
  | cons req rest ih =>
    intro i store d st' effs lines h
    simp only [runBatch] at h
    split at h
    · cases h
    · rename_i o m inc store2 effs2 hstep
      split at h
      · cases h
      · rename_i d3 store3 effs3 lines3 hrec
        simp only [Except.ok.injEq, Prod.mk.injEq] at h
        obtain ⟨rfl, rfl, rfl, rfl⟩ := h
        obtain ⟨hlen3, hd3, hfil3, hline3⟩ := ih (i + 1) store2 d3 store3 effs3 lines3 hrec
        obtain ⟨hnolog, hinc⟩ := stepRequest_ok_inv hstep
        refine ⟨by simp [hlen3], ?_, ?_, ?_⟩
        · rw [List.countP_cons, hd3]
          cases hb : inc with
          | true =>
            have hp := hinc.mp hb
            simp [hp.1, hp.2, Nat.add_comm]
          | false =>
            have hp : ¬(api c req.user_id = DeclineResult.success ∧
                markErr req.id Status.declined = none) := by
              intro hcontra
              have := hinc.mpr hcontra
              rw [hb] at this
              exact Bool.false_ne_true this
            simp [hp]
        · simp only [List.filter_append, hnolog, hfil3, List.map_cons, List.flatten]
          simp [isLogEvent]
        · intro line hline
          rcases List.mem_cons.mp hline with hhead | htail
          · exact ⟨i, o, req, m, List.mem_cons_self req rest, hhead⟩
          · obtain ⟨k, o', req', msg', hmem, hEq⟩ := hline3 line htail
            exact ⟨k, o', req', msg', List.mem_cons_of_mem req hmem, hEq⟩

/-- Declining an empty id set is the identity on the store. -/
theorem declineAll_nil (store : Store) : declineAll [] store = store := by
  unfold declineAll
  have hid : setDeclined [] = fun r => r := by
    funext r; simp [setDeclined]
  rw [hid]
  exact List.map_id' store

/-- A single-id UPDATE to declined followed by declining a further id list
equals declining the combined id list. -/
theorem declineAll_mark_one (a : Nat) (ids : List Nat) (store : Store) :
    declineAll ids (mark_join_requests_status store [a] Status.declined).1 =
      declineAll (a :: ids) store := by
  unfold declineAll mark_join_requests_status
  rw [if_neg (List.cons_ne_nil a [])]
  simp only [List.map_map]
  congr 1
  funext r
  by_cases hr : r.id = a
  · simp [setDeclined, Function.comp, hr, List.mem_cons]
  · simp [setDeclined, Function.comp, hr, List.mem_cons]

/-- With a fully successful external API and a healthy store, the batch
loop declines every selected request. -/
theorem runBatch_allSuccess {clock : Nat → String} {c : Int} :
    ∀ (reqs : List JoinRow) (i : Nat) (store : Store),
    ∃ effs lines,
      runBatch (fun _ _ => none) (fun _ _ => DeclineResult.success) clock c i
        store reqs =
      Except.ok (reqs.length, declineAll (reqs.map JoinRow.id) store, effs,
        lines) := by
  intro reqs
  induction reqs with
  | nil =>
    intro i store
    exact ⟨[], [], by simp [runBatch, declineAll_nil]⟩
  | cons req rest ih =>
    intro i store
    have hstep := @stepRequest_success_eq (fun _ _ => none)
      (fun _ _ => DeclineResult.success) c store req rfl rfl
    obtain ⟨effs3, lines3, hrec⟩ :=
      ih (i + 1) (mark_join_requests_status store [req.id] Status.declined).1
    refine ⟨[Effect.declineCall c req.user_id,
        Effect.markStatusCall [req.id] Status.declined] ++
        [Effect.logWrite (auditLine (clock i) "declined" req.id c req.user_id
          (req.username.getD "") (req.first_name.getD "") ""),
         Effect.logFlush] ++ effs3,
      auditLine (clock i) "declined" req.id c req.user_id (req.username.getD "")
        (req.first_name.getD "") "" :: lines3, ?_⟩
    simp only [runBatch, hstep, hrec, List.map_cons, List.length_cons]
    rw [declineAll_mark_one]
    simp

/-- When every store UPDATE succeeds, the batch loop never propagates an
error, whatever the external API does. -/
theorem runBatch_healthy_ok {markErr : Nat → Status → Option StoreError}
    (hm : ∀ n st, markErr n st = none) {api : Int → Int → DeclineResult}
    {clock : Nat → String} {c : Int} :
    ∀ (reqs : List JoinRow) (i : Nat) (store : Store),
    ∃ v, runBatch markErr api clock c i store reqs = Except.ok v := by
  intro reqs
  induction reqs with
  | nil => intro i store; exact ⟨_, rfl⟩
  | cons req rest ih =>
    intro i store
    have hstep : ∃ o m inc s2 e2,
        stepRequest markErr api c store req = Except.ok (o, m, inc, s2, e2) := by
      cases hapi : api c req.user_id with
      | success => exact ⟨_, _, _, _, _, stepRequest_success_eq hapi (hm _ _)⟩
      | failure e =>
        by_cases hbr : e.kind = ErrKind.badRequest ∧
            _is_expired_join_request_error e.message = true
        · exact ⟨_, _, _, _, _,
            stepRequest_badRequest_expired_eq hapi hbr.1 hbr.2 (hm _ _)⟩
        · exact ⟨_, _, _, _, _, stepRequest_failure_error_eq hapi hbr⟩
    obtain ⟨o, m, inc, s2, e2, hstep⟩ := hstep
    obtain ⟨⟨d3, s3, e3, l3⟩, hrec⟩ := ih (i + 1) s2
    refine ⟨((if inc then d3 + 1 else d3), s3,
      e2 ++ [Effect.logWrite (auditLine (clock i) o req.id c req.user_id
        (req.username.getD "") (req.first_name.getD "") m),
        Effect.logFlush] ++ e3,
      auditLine (clock i) o req.id c req.user_id (req.username.getD "")
        (req.first_name.getD "") m :: l3), ?_⟩
    simp only [runBatch, hstep, hrec]

/-- Invariants of a completed reconciliation pass: `processed` is the size
of the selection, one audit line per processed request, `declined` counts
exactly the fully successful declines, and log events come as
write-then-flush pairs in line order. -/
theorem process_ok_inv {fetchErr : Option StoreError}
    {markErr : Nat → Status → Option StoreError}
    {api : Int → Int → DeclineResult} {clock : Nat → String} {store : Store}
    {c t : Int} {limit : Nat} {lp : String} {d p : Nat} {st' : Store}
    {tr : List Effect} {lines : List String}
    (h : process_pending_fresh_join_requests fetchErr markErr api clock store
      c t limit lp = Except.ok (d, p, st', tr, lines)) :
    p = (get_pending_fresh_join_requests store c t limit).length ∧
    lines.length = p ∧
    d = (get_pending_fresh_join_requests store c t limit).countP
      (fun r => decide (api c r.user_id = DeclineResult.success ∧
        markErr r.id Status.declined = none)) ∧
    tr.filter isLogEvent =
      (lines.map (fun l => [Effect.logWrite l, Effect.logFlush])).flatten ∧
    ∀ line ∈ lines, ∃ k o req msg,
      req ∈ get_pending_fresh_join_requests store c t limit ∧
      line = auditLine (clock k) o req.id c req.user_id (req.username.getD "")
        (req.first_name.getD "") msg := by
  cases fetchErr with
  | some se => cases h
  | none =>
    simp only [process_pending_fresh_join_requests] at h
    split at h
    · rename_i hlen
      simp only [Except.ok.injEq, Prod.mk.injEq] at h
      obtain ⟨rfl, rfl, rfl, rfl, rfl⟩ := h
      have hnil : get_pending_fresh_join_requests store c t limit = [] :=
        List.length_eq_zero.mp hlen
      simp [hnil, isLogEvent]
    · rename_i hlen
      split at h
      · cases h
      · rename_i d2 store2 effs2 lines2 hrun
        simp only [Except.ok.injEq, Prod.mk.injEq] at h
        obtain ⟨rfl, rfl, rfl, rfl, rfl⟩ := h
        obtain ⟨h1, h2, h3, h4⟩ := runBatch_ok_inv _ _ _ _ _ _ _ hrun
        refine ⟨rfl, h1, h2, ?_, h4⟩
        simp [List.filter_cons, isLogEvent, h3]

/-- When every store UPDATE succeeds and the fetch succeeds, the pass never
propagates an error, whatever the external API throws. -/
theorem process_healthy_ok {markErr : Nat → Status → Option StoreError}
    (hm : ∀ n st, markErr n st = none) (api : Int → Int → DeclineResult)
    (clock : Nat → String) (store : Store) (c t : Int) (limit : Nat)
    (lp : String) :
    ∃ v, process_pending_fresh_join_requests none markErr api clock store
      c t limit lp = Except.ok v := by
  simp only [process_pending_fresh_join_requests]
  split
  · exact ⟨_, rfl⟩
  · obtain ⟨⟨d2, s2, e2, l2⟩, hrun⟩ := runBatch_healthy_ok hm
      (get_pending_fresh_join_requests store c t limit) 0 store
    exact ⟨_, by rw [hrun]⟩

/-- With a fully successful external API and a healthy store, one pass
declines its whole selection and marks exactly those rows declined. -/
theorem process_allSuccess (clock : Nat → String) (store : Store) (c t : Int)
    (limit : Nat) (lp : String) :
    ∃ tr lines,
      process_pending_fresh_join_requests none (fun _ _ => none)
        (fun _ _ => DeclineResult.success) clock store c t limit lp =
      Except.ok ((get_pending_fresh_join_requests store c t limit).length,
        (get_pending_fresh_join_requests store c t limit).length,
        declineAll ((get_pending_fresh_join_requests store c t limit).map
          JoinRow.id) store, tr, lines) := by
  simp only [process_pending_fresh_join_requests]
  split
  · rename_i hlen
    have hnil : get_pending_fresh_join_requests store c t limit = [] :=
      List.length_eq_zero.mp hlen
    refine ⟨[Effect.fetchPending c t limit], [], ?_⟩
    rw [hnil]
    simp [declineAll_nil]
  · obtain ⟨effs, lines, hrun⟩ := @runBatch_allSuccess clock c
      (get_pending_fresh_join_requests store c t limit) 0 store
    rw [hrun]
    exact ⟨_, _, rfl⟩

/-- Marking a single id sets that row's status. -/
theorem mark_singleton_status (store : Store) (a : Nat) (st : Status) :
    ∀ r ∈ (mark_join_requests_status store [a] st).1, r.id = a →
      r.status = st := by
  intro r hr hid
  simp only [mark_join_requests_status, if_neg (List.cons_ne_nil a [])] at hr
  rcases List.mem_map.mp hr with ⟨r0, _, rfl⟩
  by_cases h0 : r0.id ∈ [a]
  · have ha : r0.id = a := by simpa using h0
    simp [List.mem_singleton, ha]
  · exfalso
    simp only [if_neg h0] at hid
    exact h0 (by simp [hid])

/-- When the whole filtered set fits within the limit, the selection
contains exactly the pending-fresh rows. -/
theorem mem_sel_iff_of_le {store : Store} {c t : Int} {limit : Nat}
    (hlim : (store.filter
      (fun r => decide (pendingFresh c t r))).length ≤ limit) (r : JoinRow) :
    r ∈ get_pending_fresh_join_requests store c t limit ↔
      r ∈ store.filter (fun r => decide (pendingFresh c t r)) := by
  unfold get_pending_fresh_join_requests
  rw [List.take_of_length_le]
  · exact List.mem_insertionSort byDate
  · rw [(List.perm_insertionSort byDate _).length_eq]
    exact hlim

/-- After declining every pending-fresh row's id, no row of the store is
pending-fresh any more. -/
theorem filter_declineAll_eq_nil {store : Store} {c t : Int} {ids : List Nat}
    (hcov : ∀ r ∈ store, pendingFresh c t r → r.id ∈ ids) :
    (declineAll ids store).filter
      (fun r => decide (pendingFresh c t r)) = [] := by
  rw [List.filter_eq_nil_iff]
  intro r1 hr1
  rcases List.mem_map.mp (by simpa [declineAll] using hr1) with ⟨r0, hr0, rfl⟩
  by_cases hid : r0.id ∈ ids
  · simp [setDeclined, hid, pendingFresh]
  · simp only [setDeclined, if_neg hid, decide_eq_true_eq]
    intro hp
    exact hid (hcov r0 hr0 hp)

/-- Claim C1, counterexample: a decline failure of class `TelegramError`
(not `BadRequest`) whose text "User already participant" carries a
recognized "already resolved" signature does not set the status to
expired as the claim's second arm demands: the row stays pending and the
outcome is "error". -/
theorem C1_counterexample :
    _is_expired_join_request_error "User already participant" = true ∧
    stepRequest (fun _ _ => none)
      (fun _ _ => DeclineResult.failure
        ⟨ErrKind.telegramError, "NetworkError", "User already participant"⟩)
      100 [demoRow] demoRow =
      Except.ok ("error", "NetworkError: User already participant", false,
        [demoRow], [Effect.declineCall 100 demoRow.user_id]) ∧
    demoRow.status = Status.pending := by
  refine ⟨by decide, rfl, rfl⟩

/-- Claim C1 (amended): for every request processed in a pass, with the
store's UPDATE statement healthy, the per-request outcome follows the
three-way state machine of the code: a successful decline call marks the
row declined with outcome "declined"; a decline failure that is a
`BadRequest` with a recognized "already resolved" text marks the row
expired with outcome "expired"; any other decline failure (including a
non-`BadRequest` error with a recognized text) leaves the store untouched
— the row stays pending — with outcome "error" recording the error's type
name and message text. -/
theorem C1_amended_state_machine (markErr : Nat → Status → Option StoreError)
    (api : Int → Int → DeclineResult) (c : Int) (store : Store) (req : JoinRow)
    (hm1 : markErr req.id Status.declined = none)
    (hm2 : markErr req.id Status.expired = none) :
    (api c req.user_id = DeclineResult.success →
      stepRequest markErr api c store req =
        Except.ok ("declined", "", true,
          (mark_join_requests_status store [req.id] Status.declined).1,
          [Effect.declineCall c req.user_id,
           Effect.markStatusCall [req.id] Status.declined]) ∧
      ∀ r ∈ (mark_join_requests_status store [req.id] Status.declined).1,
        r.id = req.id → r.status = Status.declined) ∧
    (∀ e, api c req.user_id = DeclineResult.failure e →
      e.kind = ErrKind.badRequest →
      _is_expired_join_request_error e.message = true →
      stepRequest markErr api c store req =
        Except.ok ("expired", e.typeName ++ ": " ++ e.message, false,
          (mark_join_requests_status store [req.id] Status.expired).1,
          [Effect.declineCall c req.user_id,
           Effect.markStatusCall [req.id] Status.expired]) ∧
      ∀ r ∈ (mark_join_requests_status store [req.id] Status.expired).1,
        r.id = req.id → r.status = Status.expired) ∧
    (∀ e, api c req.user_id = DeclineResult.failure e →
      ¬(e.kind = ErrKind.badRequest ∧
        _is_expired_join_request_error e.message = true) →
      stepRequest markErr api c store req =
        Except.ok ("error", e.typeName ++ ": " ++ e.message, false, store,
          [Effect.declineCall c req.user_id])) := by
  refine ⟨fun hapi => ⟨stepRequest_success_eq hapi hm1, ?_⟩,
    fun e hapi hk hx => ⟨stepRequest_badRequest_expired_eq hapi hk hx hm2, ?_⟩,
    fun e hapi hnbx => stepRequest_failure_error_eq hapi hnbx⟩
  · exact mark_singleton_status store req.id Status.declined
  · exact mark_singleton_status store req.id Status.expired

/-- Claim C1, witness: the amended state machine evaluated on a concrete
successful decline. -/
theorem C1_witness :
    stepRequest (fun _ _ => none) (fun _ _ => DeclineResult.success) 100
      [demoRow] demoRow =
      Except.ok ("declined", "", true,
        (mark_join_requests_status [demoRow] [demoRow.id] Status.declined).1,
        [Effect.declineCall 100 demoRow.user_id,
         Effect.markStatusCall [demoRow.id] Status.declined]) :=
  ((C1_amended_state_machine (fun _ _ => none)
    (fun _ _ => DeclineResult.success) 100 [demoRow] demoRow rfl rfl).1 rfl).1

/-- Claim C2, counterexample: a store-level error raised by the status
UPDATE on the declined path does not propagate out of the pass, contrary to
the claim: the decline call succeeds, the UPDATE to declined raises
`OperationalError`, the bare `except Exception` branch swallows it, and the
pass completes normally with the row still pending and an "error" audit
line. -/
theorem C2_counterexample :
    process_pending_fresh_join_requests none
      (fun _ st => if st = Status.declined then some dbErr else none)
      (fun _ _ => DeclineResult.success) demoClock [demoRow] 100 7000000000 10
      "log" =
    Except.ok (0, 1, [demoRow],
      [Effect.fetchPending 100 7000000000 10, Effect.openLog "log",
       Effect.declineCall 100 7100000000,
       Effect.markStatusCall [1] Status.declined,
       Effect.logWrite
         ("2026-01-01T00:00:00+00:00\terror\trequest_id=1\tchat_id=100\t" ++
          "user_id=7100000000\tusername=alice\tfirst_name=Alice\t" ++
          "message=OperationalError: connection lost"),
       Effect.logFlush],
      [("2026-01-01T00:00:00+00:00\terror\trequest_id=1\tchat_id=100\t" ++
        "user_id=7100000000\tusername=alice\tfirst_name=Alice\t" ++
        "message=OperationalError: connection lost")]) := by
  rfl

/-- Claim C2 (amended): store errors raised by the initial fetch propagate
and abort the pass; when every store UPDATE succeeds, no external-API
exception ever escapes the pass, whatever the decline API throws; and a
store error raised by the UPDATE on the expired path (inside the
`except BadRequest` handler) propagates and aborts the pass.  However — per
the counterexample — a store error raised by the UPDATE on the declined
path is swallowed by the bare `except Exception` branch and does not
propagate. -/
theorem C2_amended_propagation :
    (∀ (se : StoreError) (markErr : Nat → Status → Option StoreError)
       (api : Int → Int → DeclineResult) (clock : Nat → String) (store : Store)
       (c t : Int) (limit : Nat) (lp : String),
      process_pending_fresh_join_requests (some se) markErr api clock store
        c t limit lp = Except.error se) ∧
    (∀ (markErr : Nat → Status → Option StoreError),
      (∀ n st, markErr n st = none) →
      ∀ (api : Int → Int → DeclineResult) (clock : Nat → String)
        (store : Store) (c t : Int) (limit : Nat) (lp : String),
      ∃ v, process_pending_fresh_join_requests none markErr api clock store
        c t limit lp = Except.ok v) ∧
    (∀ (se : StoreError) (markErr : Nat → Status → Option StoreError)
       (api : Int → Int → DeclineResult) (clock : Nat → String) (store : Store)
       (c t : Int) (limit : Nat) (lp : String) (req : JoinRow)
       (rest : List JoinRow) (e : ApiError),
      get_pending_fresh_join_requests store c t limit = req :: rest →
      api c req.user_id = DeclineResult.failure e →
      e.kind = ErrKind.badRequest →
      _is_expired_join_request_error e.message = true →
      markErr req.id Status.expired = some se →
      process_pending_fresh_join_requests none markErr api clock store
        c t limit lp = Except.error se) := by
  refine ⟨fun se markErr api clock store c t limit lp => rfl,
    fun markErr hm api clock store c t limit lp =>
      process_healthy_ok hm api clock store c t limit lp,
    fun se markErr api clock store c t limit lp req rest e hsel hapi hk hx hmark => ?_⟩
  simp only [process_pending_fresh_join_requests, hsel]
  rw [if_neg (by simp)]
  simp only [runBatch,
    stepRequest_badRequest_expired_markfail_eq hapi hk hx hmark]

/-- Claim C2, witness: the three amended parts evaluated on concrete
scenarios — a failing fetch, a healthy store with a throwing API, and a
failing expired-path UPDATE. -/
theorem C2_witness :
    process_pending_fresh_join_requests (some dbErr) (fun _ _ => none)
      (fun _ _ => DeclineResult.success) demoClock [demoRow] 100 7000000000 10
      "log" = Except.error dbErr ∧
    (∃ v, process_pending_fresh_join_requests none (fun _ _ => none)
      (fun _ _ => DeclineResult.failure
        ⟨ErrKind.otherError, "TimedOut", "Timed out"⟩)
      demoClock [demoRow] 100 7000000000 10 "log" = Except.ok v) ∧
    process_pending_fresh_join_requests none (fun _ _ => some dbErr)
      (fun _ _ => DeclineResult.failure
        ⟨ErrKind.badRequest, "BadRequest", "User already participant"⟩)
      demoClock [demoRow] 100 7000000000 10 "log" = Except.error dbErr :=
  ⟨C2_amended_propagation.1 dbErr (fun _ _ => none)
      (fun _ _ => DeclineResult.success) demoClock [demoRow] 100 7000000000 10
      "log",
   C2_amended_propagation.2.1 (fun _ _ => none) (fun _ _ => rfl)
      (fun _ _ => DeclineResult.failure
        ⟨ErrKind.otherError, "TimedOut", "Timed out"⟩)
      demoClock [demoRow] 100 7000000000 10 "log",
   C2_amended_propagation.2.2 dbErr (fun _ _ => some dbErr)
      (fun _ _ => DeclineResult.failure
        ⟨ErrKind.badRequest, "BadRequest", "User already participant"⟩)
      demoClock [demoRow] 100 7000000000 10 "log" demoRow [] _
      (by decide) rfl rfl (by decide) rfl⟩

/-- Claim C3, counterexample: the code's phrase set does not include the
claimed phrases "user not found" and "request not found" (it has
"user_not_found" with an underscore and "join request not found"): texts
containing the claimed phrases are classified false by the code, refuting
the claimed "exactly when". -/
theorem C3_counterexample :
    claimedClassifier "user not found" = true ∧
    _is_expired_join_request_error "user not found" = false ∧
    claimedClassifier "request not found" = true ∧
    _is_expired_join_request_error "request not found" = false := by
  refine ⟨by decide, by decide, by decide, by decide⟩

/-- Claim C3 (amended): the classification returns true exactly when the
lower-cased text contains one of the six fixed code phrases
("chat_join_request_not_found", "join request not found",
"user_already_participant", "user already participant",
"user is already a participant", "user_not_found"); and whenever a decline
call fails with a `BadRequest` whose text is classified this way and the
store UPDATE succeeds, the request is marked expired with outcome
"expired", not "error". -/
theorem C3_amended_classification :
    (∀ text : String, _is_expired_join_request_error text = true ↔
      ∃ needle ∈ expiredNeedles, strContains (strLower text) needle = true) ∧
    (∀ (markErr : Nat → Status → Option StoreError)
       (api : Int → Int → DeclineResult) (c : Int) (store : Store)
       (req : JoinRow) (e : ApiError),
      api c req.user_id = DeclineResult.failure e →
      e.kind = ErrKind.badRequest →
      _is_expired_join_request_error e.message = true →
      markErr req.id Status.expired = none →
      stepRequest markErr api c store req =
        Except.ok ("expired", e.typeName ++ ": " ++ e.message, false,
          (mark_join_requests_status store [req.id] Status.expired).1,
          [Effect.declineCall c req.user_id,
           Effect.markStatusCall [req.id] Status.expired]) ∧
      ∀ r ∈ (mark_join_requests_status store [req.id] Status.expired).1,
        r.id = req.id → r.status = Status.expired) := by
  constructor
  · intro text
    simp [_is_expired_join_request_error, List.any_eq_true]
  · intro markErr api c store req e hapi hk hx hm
    exact ⟨stepRequest_badRequest_expired_eq hapi hk hx hm,
      mark_singleton_status store req.id Status.expired⟩

/-- Claim C3, witness: the spec's concrete scenario — a `BadRequest` whose
text contains "User already participant" marks the request expired with
outcome "expired". -/
theorem C3_witness :
    stepRequest (fun _ _ => none)
      (fun _ _ => DeclineResult.failure
        ⟨ErrKind.badRequest, "BadRequest", "User already participant"⟩)
      100 [demoRow] demoRow =
      Except.ok ("expired", "BadRequest: User already participant", false,
        (mark_join_requests_status [demoRow] [demoRow.id] Status.expired).1,
        [Effect.declineCall 100 demoRow.user_id,
         Effect.markStatusCall [demoRow.id] Status.expired]) :=
  (C3_amended_classification.2 (fun _ _ => none)
    (fun _ _ => DeclineResult.failure
      ⟨ErrKind.badRequest, "BadRequest", "User already participant"⟩)
    100 [demoRow] demoRow _ rfl rfl (by decide) rfl).1

/-- Claim C4: the selection returns only rows of the store with the given
chat, status pending, and user id at or above the threshold, sorted by
request date ascending, and at most `limit` of them. -/
theorem C4_selection (store : Store) (c t : Int) (limit : Nat) :
    (∀ r ∈ get_pending_fresh_join_requests store c t limit,
      r ∈ store ∧ r.chat_id = c ∧ r.status = Status.pending ∧ t ≤ r.user_id) ∧
    List.Sorted byDate (get_pending_fresh_join_requests store c t limit) ∧
    (get_pending_fresh_join_requests store c t limit).length ≤ limit := by
  unfold get_pending_fresh_join_requests
  refine ⟨?_, ?_, ?_⟩
  · intro r hr
    have hr2 := (List.take_sublist _ _).subset hr
    have hr3 := (List.mem_insertionSort byDate).mp hr2
    obtain ⟨hmem, hp⟩ := List.mem_filter.mp hr3
    rw [decide_eq_true_eq] at hp
    exact ⟨hmem, hp.1, hp.2.1, hp.2.2⟩
  · exact List.Pairwise.sublist (List.take_sublist _ _)
      (List.sorted_insertionSort byDate _)
  · exact List.length_take_le _ _

/-- Claim C4, witness: the selection properties evaluated on a concrete
two-row store. -/
theorem C4_witness :
    (∀ r ∈ get_pending_fresh_join_requests [demoRow2, demoRow] 100
        7000000000 10, r.status = Status.pending) ∧
    (get_pending_fresh_join_requests [demoRow2, demoRow] 100
      7000000000 10).length ≤ 10 :=
  ⟨fun r hr =>
    ((C4_selection [demoRow2, demoRow] 100 7000000000 10).1 r hr).2.2.1,
   (C4_selection [demoRow2, demoRow] 100 7000000000 10).2.2⟩

/-- Claim C5: when the fetch selects nothing, the pass returns `(0, 0)`
with the store untouched and no effect beyond the fetch itself: no log file
opened, no decline call, no status update, no line written. -/
theorem C5_empty_batch (markErr : Nat → Status → Option StoreError)
    (api : Int → Int → DeclineResult) (clock : Nat → String) (store : Store)
    (c t : Int) (limit : Nat) (lp : String)
    (hsel : get_pending_fresh_join_requests store c t limit = []) :
    process_pending_fresh_join_requests none markErr api clock store c t limit
      lp = Except.ok (0, 0, store, [Effect.fetchPending c t limit], []) := by
  simp only [process_pending_fresh_join_requests, hsel]
  simp

/-- Claim C5, witness: the empty-batch frame condition on a store whose
only row is already declined. -/
theorem C5_witness :
    process_pending_fresh_join_requests none (fun _ _ => none)
      (fun _ _ => DeclineResult.success) demoClock
      [⟨1, 7100000000, 100, some "alice", some "Alice", 1, Status.declined⟩]
      100 7000000000 10 "log" =
    Except.ok (0, 0,
      [⟨1, 7100000000, 100, some "alice", some "Alice", 1, Status.declined⟩],
      [Effect.fetchPending 100 7000000000 10], []) :=
  C5_empty_batch (fun _ _ => none) (fun _ _ => DeclineResult.success)
    demoClock
    [⟨1, 7100000000, 100, some "alice", some "Alice", 1, Status.declined⟩]
    100 7000000000 10 "log" (by decide)

/-- Claim C6: a completed pass writes exactly one audit line per processed
request; every line is the fixed-order tab-separated `auditLine` with a
non-empty timestamp; log events come strictly as write-then-flush pairs in
line order (each line is flushed immediately after being written); and the
sanitizer guarantees the username, first-name and message fields contain no
embedded newline. -/
theorem C6_audit_log {fetchErr : Option StoreError}
    {markErr : Nat → Status → Option StoreError}
    {api : Int → Int → DeclineResult} {clock : Nat → String} {store : Store}
    {c t : Int} {limit : Nat} {lp : String} {d p : Nat} {st' : Store}
    {tr : List Effect} {lines : List String}
    (h : process_pending_fresh_join_requests fetchErr markErr api clock store
      c t limit lp = Except.ok (d, p, st', tr, lines))
    (hclock : ∀ k, clock k ≠ "") :
    lines.length = p ∧
    (∀ line ∈ lines, ∃ ts o rid cid uid un fn msg,
      line = auditLine ts o rid cid uid un fn msg ∧ ts ≠ "") ∧
    tr.filter isLogEvent =
      (lines.map (fun l => [Effect.logWrite l, Effect.logFlush])).flatten ∧
    ∀ s : String, ∀ ch ∈ (_sanitize_one_line s).data, ch ≠ '\n' ∧ ch ≠ '\r' := by
  obtain ⟨h1, h2, h3, h4, h5⟩ := process_ok_inv h
  refine ⟨h2, ?_, h4, fun s => sanitize_no_newline s⟩
  intro line hl
  obtain ⟨k, o, req, msg, _, rfl⟩ := h5 line hl
  exact ⟨clock k, o, req.id, c, req.user_id, req.username.getD "",
    req.first_name.getD "", msg, rfl, hclock k⟩

/-- Claim C6, witness: the audit-log properties evaluated on a concrete
one-request pass. -/
theorem C6_witness :
    ([demoLine].length = 1 ∧
     (∀ line ∈ [demoLine], ∃ ts o rid cid uid un fn msg,
       line = auditLine ts o rid cid uid un fn msg ∧ ts ≠ "") ∧
     demoTrace.filter isLogEvent =
       ([demoLine].map (fun l => [Effect.logWrite l, Effect.logFlush])).flatten ∧
     ∀ s : String, ∀ ch ∈ (_sanitize_one_line s).data, ch ≠ '\n' ∧ ch ≠ '\r') :=
  C6_audit_log
    (show process_pending_fresh_join_requests none (fun _ _ => none)
        (fun _ _ => DeclineResult.success) demoClock [demoRow] 100 7000000000
        10 "log" =
      Except.ok (1, 1, [demoRowDeclined], demoTrace, [demoLine]) from rfl)
    (fun _ => (by decide : "2026-01-01T00:00:00+00:00" ≠ ""))

/-- An empty selection short-circuits the pass before any log or API
effect. -/
theorem process_empty_sel (markErr : Nat → Status → Option StoreError)
    (api : Int → Int → DeclineResult) (clock : Nat → String) (store : Store)
    (c t : Int) (limit : Nat) (lp : String)
    (hsel : get_pending_fresh_join_requests store c t limit = []) :
    process_pending_fresh_join_requests none markErr api clock store c t limit
      lp = Except.ok (0, 0, store, [Effect.fetchPending c t limit], []) := by
  simp only [process_pending_fresh_join_requests, hsel]
  simp

/-- A store with no pending-fresh row yields an empty selection. -/
theorem get_pending_of_filter_nil {store : Store} {c t : Int} {limit : Nat}
    (h : store.filter (fun r => decide (pendingFresh c t r)) = []) :
    get_pending_fresh_join_requests store c t limit = [] := by
  unfold get_pending_fresh_join_requests
  rw [h]
  simp

/-- Claim C7, counterexample: two pending fresh requests and batch limit 1.
Both passes see a pending request and decline it, so the second run
declines 1, not 0, although no new request arrived between the runs and the
external API succeeded on every call. -/
theorem C7_counterexample :
    runTwice demoClock "log" [demoRow, demoRow2] 100 7000000000 1 =
      some (1, 1) := by
  rfl

/-- Claim C7 (amended): when the initial pending-fresh set fits within the
batch limit, running the pass twice in succession with no new inbound
requests and an always-successful external API yields zero declines on the
second run: the first run resolves the entire selection, and resolved rows
are excluded from the second fetch because only pending rows are
selected. -/
theorem C7_idempotent (clock : Nat → String) (lp : String) (store : Store)
    (c t : Int) (limit : Nat)
    (hlim : (store.filter
      (fun r => decide (pendingFresh c t r))).length ≤ limit) :
    runTwice clock lp store c t limit =
      some ((get_pending_fresh_join_requests store c t limit).length, 0) := by
  obtain ⟨tr1, l1, h1⟩ := process_allSuccess clock store c t limit lp
  have hcov : ∀ r ∈ store, pendingFresh c t r →
      r.id ∈ (get_pending_fresh_join_requests store c t limit).map
        JoinRow.id := by
    intro r hr hp
    exact List.mem_map.mpr ⟨r, (mem_sel_iff_of_le hlim r).mpr
      (List.mem_filter.mpr ⟨hr, by simp [hp]⟩), rfl⟩
  have hsel2 : get_pending_fresh_join_requests
      (declineAll ((get_pending_fresh_join_requests store c t limit).map
        JoinRow.id) store) c t limit = [] :=
    get_pending_of_filter_nil (filter_declineAll_eq_nil hcov)
  have h2 := process_empty_sel (fun _ _ => none)
    (fun _ _ => DeclineResult.success) clock
    (declineAll ((get_pending_fresh_join_requests store c t limit).map
      JoinRow.id) store) c t limit lp hsel2
  simp only [runTwice, h1, h2]

/-- Claim C7, witness: a store whose pending-fresh set fits in the limit
yields zero declines on the second run. -/
theorem C7_witness :
    runTwice demoClock "log" [demoRow] 100 7000000000 10 =
      some ((get_pending_fresh_join_requests [demoRow] 100
        7000000000 10).length, 0) :=
  C7_idempotent demoClock "log" [demoRow] 100 7000000000 10 (by decide)

/-- Claim C8: a tick of the periodic job fired while the reconciliation
lock is held returns immediately as a silent no-op: no error is raised, the
store is untouched, and the effect trace is empty — no fetch, no external
decline call, no status update, no log activity. -/
theorem C8_reentrancy_drop (vib : Option Int) (fetchErr : Option StoreError)
    (markErr : Nat → Status → Option StoreError)
    (api : Int → Int → DeclineResult) (clock : Nat → String) (store : Store)
    (t : Int) (limit : Nat) (lp : String) :
    clean_join_requests_job true vib fetchErr markErr api clock store t limit
      lp = Except.ok (store, []) := rfl

/-- Claim C9: a decline failure whose exception class is not `BadRequest`
never yields status expired, even when its text carries a recognized
"already resolved" phrase: the phrase test runs only inside the
`except BadRequest` handler, so the store is untouched (the row stays
pending) and the outcome is "error". -/
theorem C9_non_badRequest_error (markErr : Nat → Status → Option StoreError)
    (api : Int → Int → DeclineResult) (c : Int) (store : Store) (req : JoinRow)
    (e : ApiError) (hapi : api c req.user_id = DeclineResult.failure e)
    (hkind : e.kind ≠ ErrKind.badRequest)
    (_hsig : _is_expired_join_request_error e.message = true) :
    stepRequest markErr api c store req =
      Except.ok ("error", e.typeName ++ ": " ++ e.message, false, store,
        [Effect.declineCall c req.user_id]) :=
  stepRequest_failure_error_eq hapi (fun hc => hkind hc.1)

/-- Claim C9, witness: a `TelegramError` carrying the recognized phrase
"user is already a participant" still leaves the row pending with outcome
"error". -/
theorem C9_witness :
    stepRequest (fun _ _ => none)
      (fun _ _ => DeclineResult.failure
        ⟨ErrKind.telegramError, "NetworkError",
         "user is already a participant"⟩)
      100 [demoRow2] demoRow2 =
      Except.ok ("error", "NetworkError: user is already a participant",
        false, [demoRow2], [Effect.declineCall 100 demoRow2.user_id]) :=
  C9_non_badRequest_error (fun _ _ => none)
    (fun _ _ => DeclineResult.failure
      ⟨ErrKind.telegramError, "NetworkError",
       "user is already a participant"⟩)
    100 [demoRow2] demoRow2 _ rfl (by decide) (by decide)

/-- Claim C10: a completed pass returns counts with
`0 ≤ declined ≤ processed ≤ limit`, `processed` the size of the selection,
and `declined` counting exactly the requests whose decline call and UPDATE
to declined both succeeded. -/
theorem C10_count_bounds {fetchErr : Option StoreError}
    {markErr : Nat → Status → Option StoreError}
    {api : Int → Int → DeclineResult} {clock : Nat → String} {store : Store}
    {c t : Int} {limit : Nat} {lp : String} {d p : Nat} {st' : Store}
    {tr : List Effect} {lines : List String}
    (h : process_pending_fresh_join_requests fetchErr markErr api clock store
      c t limit lp = Except.ok (d, p, st', tr, lines)) :
    0 ≤ d ∧ d ≤ p ∧ p ≤ limit ∧
    p = (get_pending_fresh_join_requests store c t limit).length ∧
    d = (get_pending_fresh_join_requests store c t limit).countP
      (fun r => decide (api c r.user_id = DeclineResult.success ∧
        markErr r.id Status.declined = none)) := by
  obtain ⟨h1, h2, h3, h4, h5⟩ := process_ok_inv h
  refine ⟨Nat.zero_le d, ?_, ?_, h1, h3⟩
  · rw [h3, h1]
    exact List.countP_le_length _
  · rw [h1]
    unfold get_pending_fresh_join_requests
    exact List.length_take_le _ _

/-- Claim C10, witness: the count bounds evaluated on a concrete
one-request pass. -/
theorem C10_witness :
    0 ≤ 1 ∧ 1 ≤ 1 ∧ 1 ≤ 10 ∧
    1 = (get_pending_fresh_join_requests [demoRow] 100 7000000000 10).length ∧
    1 = (get_pending_fresh_join_requests [demoRow] 100
      7000000000 10).countP
      (fun r => decide ((fun _ _ => DeclineResult.success) (100 : Int)
          r.user_id = DeclineResult.success ∧
        (fun _ _ => none : Nat → Status → Option StoreError) r.id
          Status.declined = none)) :=
  C10_count_bounds
    (show process_pending_fresh_join_requests none (fun _ _ => none)
        (fun _ _ => DeclineResult.success) demoClock [demoRow] 100 7000000000
        10 "log" =
      Except.ok (1, 1, [demoRowDeclined], demoTrace, [demoLine]) from rfl)
